import Mathlib

/-!
Verification of the query-translation and dual-store consistency core of
`DataViewSet` (file `onadata/apps/api/viewsets/data_viewset.py`).

The embedding models JSON-like Python values (`PyVal`), Python dict
operations (`dictGet`, `dictSet`, `dictUpdate` mirroring `dict.update`),
Python truthiness (`pyTruthy`), the filter resolver
`DataViewSet.__build_db_queries` (`build_db_queries` below, instrumented
with a log of document-store operations it performs), and the bulk
deletion entry point `DataViewSet.bulk_delete` (`bulk_delete` below,
with the Django signal connect/disconnect state made explicit).
-/

/-- A JSON-like Python value, as found in a request payload. -/
inductive PyVal where
  | none
  | bool (b : Bool)
  | int (n : Int)
  | str (s : String)
  | list (xs : List PyVal)
  | dict (entries : List (String × PyVal))

/-- Python truthiness (`bool(v)`): `None`, `False`, `0`, `""`, `[]`, `\x7b\x7d`
are falsy, everything else truthy. -/
def pyTruthy : PyVal → Bool
  | PyVal.none => false
  | PyVal.bool b => b
  | PyVal.int n => n != 0
  | PyVal.str s => s != ""
  | PyVal.list xs => !xs.isEmpty
  | PyVal.dict d => !d.isEmpty

/-- Python `d.get(k)` / `d[k]` lookup on a dict represented as an
association list in insertion order. -/
def dictGet (d : List (String × PyVal)) (k : String) : Option PyVal :=
  match d with
  | [] => Option.none
  | (k', v) :: rest => if k' == k then some v else dictGet rest k

/-- Python `d[k] = v`: replace the value at an existing key in place,
otherwise append the new key at the end. -/
def dictSet (d : List (String × PyVal)) (k : String) (v : PyVal) :
    List (String × PyVal) :=
  match d with
  | [] => [(k, v)]
  | (k', v') :: rest =>
      if k' == k then (k', v) :: rest else (k', v') :: dictSet rest k v

/-- Python `d.update(e)`: set each key/value pair of `e` into `d`, in order;
values from `e` win on common keys. -/
def dictUpdate (d e : List (String × PyVal)) : List (String × PyVal) :=
  e.foldl (fun acc kv => dictSet acc kv.1 kv.2) d

/-- The payload cleanup in `__build_db_queries`:
`payload = \x7bk: v for k, v in request_data.items() if v\x7d`. -/
def stripFalsy (d : List (String × PyVal)) : List (String × PyVal) :=
  d.filter (fun kv => pyTruthy kv.2)

theorem dictGet_dictSet_self (d : List (String × PyVal)) (k : String)
    (v : PyVal) : dictGet (dictSet d k v) k = some v := by
  induction d with
  | nil => simp [dictSet, dictGet]
  | cons hd tl ih =>
      by_cases h : hd.1 == k
      · simp [dictSet, dictGet, h]
      · simp only [dictSet, dictGet]
        rw [if_neg (by simpa using h), dictGet, if_neg (by simpa using h)]
        exact ih

theorem dictGet_dictUpdate_single (d : List (String × PyVal)) (k : String)
    (v : PyVal) : dictGet (dictUpdate d [(k, v)]) k = some v := by
  simpa [dictUpdate] using dictGet_dictSet_self d k v

/-- Python `int(v)` failures: `ValueError` is caught by
`__build_db_queries` and turned into a `ValidationError`; `TypeError`
(non-iterable `submission_ids`, or an element with no integer
conversion) propagates uncaught. -/
inductive PyErr where
  | valueError
  | typeError

/-- Whitespace characters stripped by Python `int(s)`. -/
def isPySpace (c : Char) : Bool :=
  c == ' ' || c == '\t' || c == '\n' || c == '\r'

def parseDigitsAux : List Char → Nat → Option Nat
  | [], acc => some acc
  | c :: cs, acc =>
      if c.isDigit then parseDigitsAux cs (acc * 10 + (c.toNat - 48))
      else Option.none

/-- A non-empty run of decimal digits, as a number. -/
def parseDigits : List Char → Option Nat
  | [] => Option.none
  | cs => parseDigitsAux cs 0

/-- Python `int(s)` on a string: optional surrounding whitespace, optional
sign, decimal digits. -/
def pyParseInt (s : String) : Option Int :=
  let cs :=
    ((s.data.dropWhile isPySpace).reverse.dropWhile isPySpace).reverse
  match cs with
  | '-' :: rest => (parseDigits rest).map (fun n => -(n : Int))
  | '+' :: rest => (parseDigits rest).map (fun n => (n : Int))
  | _ => (parseDigits cs).map (fun n => (n : Int))

/-- Python `int(v)` on a payload value. -/
def pyInt : PyVal → Except PyErr Int
  | PyVal.int n => Except.ok n
  | PyVal.bool b => Except.ok (if b then 1 else 0)
  | PyVal.str s =>
      match pyParseInt s with
      | some n => Except.ok n
      | Option.none => Except.error PyErr.valueError
  | _ => Except.error PyErr.typeError

/-- Python iteration over a payload value, as used by the comprehension
`[int(submission_id) for submission_id in submission_ids]`: lists yield
their elements, strings their characters, dicts their keys; other values
raise `TypeError`. -/
def pyIterate : PyVal → Except PyErr (List PyVal)
  | PyVal.list xs => Except.ok xs
  | PyVal.str s => Except.ok (s.data.map (fun c => PyVal.str (String.mk [c])))
  | PyVal.dict d => Except.ok (d.map (fun kv => PyVal.str kv.1))
  | _ => Except.error PyErr.typeError

/-- The comprehension `[int(submission_id) for submission_id in
submission_ids]`, with the first failing conversion aborting. -/
def pyIntList (v : PyVal) : Except PyErr (List Int) := do
  let xs ← pyIterate v
  xs.mapM pyInt

/-- The slice of `XForm` used by `__build_db_queries`: primary key,
owner username (`xform_.user.username`) and form identifier string
(`xform_.id_string`). -/
structure XFormM where
  id : Int
  username : String
  id_string : String

/-- Modelled from the spec: `ParsedInstance.get_base_query` lives in
`onadata/apps/viewer/models/parsed_instance.py`, which is not under
`src/`. Per the spec (§4.1, §9, glossary) the base scope is a document
filter fragment keyed by the scoping key (the source comment at the
merge site names it `_userform_id`), derived from the owner username
and the form identifier string. -/
def get_base_query (username id_string : String) : List (String × PyVal) :=
  [("_userform_id", PyVal.str (username ++ "_" ++ id_string))]

/-- The PostgreSQL filter kwargs built by `__build_db_queries`:
`xform_id` always, `id__in` when an id list was resolved. -/
structure PostgresQuery where
  xform_id : Int
  id__in : Option (List PyVal)

/-- One operation against the document store (MongoDB), as issued by
the engine: a read (`ParsedInstance.query_mongo_no_paging`) or a write
(such as `ParsedInstance.bulk_delete`). -/
inductive StoreOp where
  | docRead (query : List (String × PyVal))
  | docWrite (query : List (String × PyVal))

/-- The typed failures `__build_db_queries` can raise:
`ValidationError` for a conflicting selection, a non-mapping query or
invalid submission ids; `NoConfirmationProvidedException` when neither
selector is present and `confirm` is not exactly `True`; an uncaught
`TypeError` from the id conversions. -/
inductive BuildError where
  | conflictingSelection
  | invalidQuery
  | invalidIds
  | noConfirmationProvided
  | typeError

/-- `DataViewSet.__build_db_queries(xform_, request_data)`. The document
store is abstracted as `exec`, the behaviour of
`ParsedInstance.query_mongo_no_paging` restricted to the `_id`
projection: it maps the (merged) query to the list of matching records.
The second component of the result is the log of document-store
operations performed during resolution, in order. -/
def build_db_queries
    (exec : List (String × PyVal) → List (List (String × PyVal)))
    (xform : XFormM) (request_data : List (String × PyVal)) :
    Except BuildError (PostgresQuery × List (String × PyVal)) ×
      List StoreOp :=
  let mongo_query := get_base_query xform.username xform.id_string
  let postgres_query : PostgresQuery :=
    { xform_id := xform.id, id__in := Option.none }
  let payload := stripFalsy request_data
  if (dictGet payload "query").isSome &&
      (dictGet payload "submission_ids").isSome then
    (Except.error BuildError.conflictingSelection, [])
  else
    match dictGet payload "query" with
    | some (PyVal.dict qEntries) =>
        let merged := dictUpdate qEntries mongo_query
        let instance_ids :=
          (exec merged).map (fun r => (dictGet r "_id").getD PyVal.none)
        (Except.ok
          ({ postgres_query with id__in := some instance_ids },
            dictUpdate mongo_query
              [("_id", PyVal.dict [("$in", PyVal.list instance_ids)])]),
          [StoreOp.docRead merged])
    | some _ => (Except.error BuildError.invalidQuery, [])
    | Option.none =>
        match dictGet payload "submission_ids" with
        | some sids =>
            match pyIntList sids with
            | Except.error PyErr.valueError =>
                (Except.error BuildError.invalidIds, [])
            | Except.error PyErr.typeError =>
                (Except.error BuildError.typeError, [])
            | Except.ok ints =>
                let instance_ids := ints.map PyVal.int
                (Except.ok
                  ({ postgres_query with id__in := some instance_ids },
                    dictUpdate mongo_query
                      [("_id", PyVal.dict [("$in", PyVal.list instance_ids)])]),
                  [])
        | Option.none =>
            match (dictGet payload "confirm").getD (PyVal.bool false) with
            | PyVal.bool true => (Except.ok (postgres_query, mongo_query), [])
            | _ => (Except.error BuildError.noConfirmationProvided, [])

/-- Connection state of the three Django signal receivers that
`bulk_delete` disconnects: `_remove_from_mongo` (pre_delete on
`ParsedInstance`), `nullify_exports_time_of_last_submission` and
`update_xform_submission_count_delete` (post_delete on `Instance`). -/
structure SignalState where
  removeFromMongoConnected : Bool
  nullifyExportsConnected : Bool
  updateCountConnected : Bool

/-- All three per-row side-effect receivers connected: the normal state
outside a bulk deletion. -/
def SignalState.allConnected : SignalState :=
  { removeFromMongoConnected := true
    nullifyExportsConnected := true
    updateCountConnected := true }

/-- Modelled from the spec: `update_xform_submission_count_delete` lives
in `onadata/apps/logger/models/instance.py`, which is not under `src/`.
Per §4.4 the Aggregate Consistency Updater decrements the form's cached
submission count by the delta, never below zero. -/
def update_xform_submission_count_delete (count value : Nat) : Nat :=
  count - value

/-- The engine state visible to `bulk_delete`: the signal connection
state plus the form-level aggregates it patches (the cached submission
count, and the export freshness marker cleared by
`nullify_exports_time_of_last_submission`, modelled from the spec as it
is defined outside `src/`). -/
structure EngineState where
  signals : SignalState
  submissionCount : Nat
  exportsTimeOfLastSubmission : Option Nat

/-- The two store mutations `bulk_delete` performs, each of which may
raise. `pgDelete` models `Instance.objects.filter(**postgres_query
).delete()`: on success it returns the total deleted-object count and,
when present, the per-model count for `logger.Instance` (its absence
models the `KeyError` branch). `mongoDelete` models
`ParsedInstance.bulk_delete(mongo_query)`. -/
structure DeleteBackend where
  pgDelete : PostgresQuery → Except String (Nat × Option Nat)
  mongoDelete : List (String × PyVal) → Except String Unit

/-- Failures escaping `bulk_delete`: a filter-resolution failure
(raised before any signal is disconnected) or a store failure raised
inside the `try` body. -/
inductive BulkDeleteError where
  | build (e : BuildError)
  | store (msg : String)

/-- `DataViewSet.bulk_delete(request)` after `get_object()`: resolve the
filters, disconnect the three signal receivers, then inside
`try ... finally`: delete from PostgreSQL, read the per-model count
(`KeyError` → 0), delete from MongoDB, re-apply the two aggregate
updates by hand; the `finally` block reconnects all three receivers on
every exit path. Returns the deleted-record count on success, paired
with the resulting engine state. -/
def bulk_delete (backend : DeleteBackend)
    (exec : List (String × PyVal) → List (List (String × PyVal)))
    (xform : XFormM) (request_data : List (String × PyVal))
    (s : EngineState) : Except BulkDeleteError Nat × EngineState :=
  match (build_db_queries exec xform request_data).1 with
  | Except.error e => (Except.error (BulkDeleteError.build e), s)
  | Except.ok (postgres_query, mongo_query) =>
      let disconnected : EngineState :=
        { s with signals :=
            { removeFromMongoConnected := false
              nullifyExportsConnected := false
              updateCountConnected := false } }
      match backend.pgDelete postgres_query with
      | Except.error msg =>
          (Except.error (BulkDeleteError.store msg),
            { disconnected with signals := SignalState.allConnected })
      | Except.ok (_, instanceResult) =>
          let deleted_records_count := instanceResult.getD 0
          match backend.mongoDelete mongo_query with
          | Except.error msg =>
              (Except.error (BulkDeleteError.store msg),
                { disconnected with signals := SignalState.allConnected })
          | Except.ok _ =>
              let afterAggregates : EngineState :=
                { disconnected with
                    exportsTimeOfLastSubmission := Option.none
                    submissionCount :=
                      update_xform_submission_count_delete
                        disconnected.submissionCount deleted_records_count }
              (Except.ok deleted_records_count,
                { afterAggregates with signals := SignalState.allConnected })

/-- Whether a subsequent single-row delete would run its normal per-row
side effects: it does exactly when all three receivers are connected. -/
def single_delete_runs_side_effects (s : SignalState) : Bool :=
  s.removeFromMongoConnected && s.nullifyExportsConnected &&
    s.updateCountConnected

theorem build_db_queries_ops_cases
    (exec : List (String × PyVal) → List (List (String × PyVal)))
    (xform : XFormM) (request_data : List (String × PyVal)) :
    (build_db_queries exec xform request_data).2 = [] ∨
    ∃ qE, dictGet (stripFalsy request_data) "query" = some (PyVal.dict qE) ∧
      (build_db_queries exec xform request_data).2
        = [StoreOp.docRead (dictUpdate qE
            (get_base_query xform.username xform.id_string))] := by
  simp only [build_db_queries]
  rcases hq : dictGet (stripFalsy request_data) "query" with _ | qv
  · rcases hs : dictGet (stripFalsy request_data) "submission_ids" with _ | sv
    · rcases hc : (dictGet (stripFalsy request_data) "confirm").getD
          (PyVal.bool false) with _ | b | n | s | xs | d <;>
        [skip; rcases b with _ | _; skip; skip; skip; skip] <;>
          simp [hq, hs, hc]
    · rcases hpi : pyIntList sv with e | ints
      · rcases e <;> simp [hq, hs, hpi]
      · simp [hq, hs, hpi]
  · rcases hs : (dictGet (stripFalsy request_data) "submission_ids").isSome
      with _ | _
    · rcases qv with _ | b | n | s | xs | d <;> simp [hq, hs]
    · rcases qv with _ | b | n | s | xs | d <;> simp [hq, hs]

/-- C1: for every form and every payload whose `query` value is a
mapping (and without a competing `submission_ids` selector, which would
be rejected), filter resolution succeeds; the document query it
executes and the document filter it returns both contain the base
scope fragment derived from the form owner's username and the form
identifier — the base scope silently overrides any user-supplied value
for the scope key, never the reverse — and the returned relational
filter contains the clause `xform_id = <form id>`. -/
theorem build_db_queries_base_scope_overrides
    (exec : List (String × PyVal) → List (List (String × PyVal)))
    (xform : XFormM) (request_data : List (String × PyVal))
    (qEntries : List (String × PyVal))
    (hq : dictGet (stripFalsy request_data) "query"
      = some (PyVal.dict qEntries))
    (hs : dictGet (stripFalsy request_data) "submission_ids"
      = Option.none) :
    ∃ pg mq merged,
      build_db_queries exec xform request_data
        = (Except.ok (pg, mq), [StoreOp.docRead merged]) ∧
      pg.xform_id = xform.id ∧
      dictGet merged "_userform_id"
        = some (PyVal.str (xform.username ++ "_" ++ xform.id_string)) ∧
      dictGet mq "_userform_id"
        = some (PyVal.str (xform.username ++ "_" ++ xform.id_string)) := by
  refine ⟨{ xform_id := xform.id,
            id__in := some ((exec (dictUpdate qEntries
              (get_base_query xform.username xform.id_string))).map
                (fun r => (dictGet r "_id").getD PyVal.none)) },
          dictUpdate (get_base_query xform.username xform.id_string)
            [("_id", PyVal.dict [("$in", PyVal.list ((exec (dictUpdate qEntries
              (get_base_query xform.username xform.id_string))).map
                (fun r => (dictGet r "_id").getD PyVal.none)))])],
          dictUpdate qEntries (get_base_query xform.username xform.id_string),
    ?_, rfl, ?_, ?_⟩
  · simp [build_db_queries, hq, hs]
  · simpa [get_base_query] using
      dictGet_dictUpdate_single qEntries "_userform_id"
        (PyVal.str (xform.username ++ "_" ++ xform.id_string))
  · simp [get_base_query, dictUpdate, dictSet, dictGet]

/-- Witness for C1 at a concrete form and payload whose user query
supplies its own `_userform_id` value, which the base scope overrides. -/
theorem build_db_queries_base_scope_overrides_witness :
    ∃ pg mq merged,
      build_db_queries (fun _ => [[("_id", PyVal.int 11)]])
          ⟨7, "alice", "form_a"⟩
          [("query", PyVal.dict
            [("_userform_id", PyVal.str "evil"),
             ("kind", PyVal.str "monthly")])]
        = (Except.ok (pg, mq), [StoreOp.docRead merged]) ∧
      pg.xform_id = 7 ∧
      dictGet merged "_userform_id" = some (PyVal.str "alice_form_a") ∧
      dictGet mq "_userform_id" = some (PyVal.str "alice_form_a") :=
  build_db_queries_base_scope_overrides (fun _ => [[("_id", PyVal.int 11)]])
    ⟨7, "alice", "form_a"⟩ _ _ rfl rfl

/-- Counterexample to C2: filter resolution is not free of store
operations. At this concrete form and payload (a mapping `query`),
`__build_db_queries` itself executes the merged document query against
the document store (`ParsedInstance.query_mongo_no_paging`): its
operation log holds exactly one document-store read, not zero. -/
theorem build_db_queries_reads_store_counterexample :
    (build_db_queries (fun _ => []) ⟨9, "carol", "form_c"⟩
        [("query", PyVal.dict [("kind", PyVal.str "monthly")])]).2
      = [StoreOp.docRead
          [("kind", PyVal.str "monthly"),
           ("_userform_id", PyVal.str "carol_form_c")]] ∧
    (build_db_queries (fun _ => []) ⟨9, "carol", "form_c"⟩
        [("query", PyVal.dict [("kind", PyVal.str "monthly")])]).2.length
      = 1 :=
  ⟨rfl, rfl⟩

/-- C2 (amended): filter resolution issues no document-store writes and
at most one document-store operation; the log is non-empty exactly in
the mapping-`query` scenario, where the resolver itself executes the
merged document query (one read) to turn it into concrete ids. -/
theorem build_db_queries_read_only_single_read
    (exec : List (String × PyVal) → List (List (String × PyVal)))
    (xform : XFormM) (request_data : List (String × PyVal)) :
    (∀ m, StoreOp.docWrite m ∉ (build_db_queries exec xform request_data).2) ∧
    (build_db_queries exec xform request_data).2.length ≤ 1 ∧
    ((build_db_queries exec xform request_data).2 ≠ [] →
      ∃ qE,
        dictGet (stripFalsy request_data) "query" = some (PyVal.dict qE) ∧
        (build_db_queries exec xform request_data).2
          = [StoreOp.docRead (dictUpdate qE
              (get_base_query xform.username xform.id_string))]) := by
  rcases build_db_queries_ops_cases exec xform request_data
    with h | ⟨qE, hq, h⟩
  · rw [h]
    exact ⟨by simp, by simp, fun hne => absurd rfl hne⟩
  · rw [h]
    refine ⟨?_, by simp, fun _ => ⟨qE, hq, rfl⟩⟩
    intro m hm
    simp only [List.mem_singleton] at hm
    exact StoreOp.noConfusion hm

/-- Witness for C2 (amended) at a concrete query payload: the log is
the single read of the merged query. -/
theorem build_db_queries_read_only_single_read_witness :
    ∃ qE,
      dictGet (stripFalsy
        [("query", PyVal.dict [("status", PyVal.str "open")])]) "query"
        = some (PyVal.dict qE) ∧
      (build_db_queries (fun _ => []) ⟨2, "dave", "form_d"⟩
          [("query", PyVal.dict [("status", PyVal.str "open")])]).2
        = [StoreOp.docRead (dictUpdate qE (get_base_query "dave" "form_d"))] :=
  (build_db_queries_read_only_single_read (fun _ => []) ⟨2, "dave", "form_d"⟩
      [("query", PyVal.dict [("status", PyVal.str "open")])]).2.2
    (fun h => List.noConfusion h)

/-- C3: for every execution of `bulk_delete` starting with the three
per-row side-effect receivers connected, they are connected again on
every exit path — whether resolution fails before suspension, the
relational deletion raises, the document deletion raises, or the
operation succeeds — so a subsequent single-row delete still runs its
normal per-row side effects. -/
theorem bulk_delete_restores_signals (backend : DeleteBackend)
    (exec : List (String × PyVal) → List (List (String × PyVal)))
    (xform : XFormM) (request_data : List (String × PyVal))
    (count : Nat) (t : Option Nat) :
    ((bulk_delete backend exec xform request_data
        ⟨SignalState.allConnected, count, t⟩).2).signals
      = SignalState.allConnected ∧
    single_delete_runs_side_effects
      ((bulk_delete backend exec xform request_data
        ⟨SignalState.allConnected, count, t⟩).2).signals = true := by
  unfold bulk_delete
  rcases hb : (build_db_queries exec xform request_data).1 with e | ⟨pgq, mq⟩
  · exact ⟨rfl, rfl⟩
  · rcases hpg : backend.pgDelete pgq with msg | nr
    · simp [hpg, single_delete_runs_side_effects, SignalState.allConnected]
    · rcases nr with ⟨n, r⟩
      rcases hm : backend.mongoDelete mq with msg | u <;>
        simp [hpg, hm, single_delete_runs_side_effects,
          SignalState.allConnected]

/-- C4: for every payload with no non-empty `query` and no non-empty
`submission_ids` (falsy values having been stripped), filter resolution
raises `NoConfirmationProvidedException` unless the stripped payload's
`confirm` value is exactly boolean `True`; when it is, resolution
succeeds with the whole-form filters `xform_id = <form id>` (no id
narrowing) and the bare base scope. -/
theorem build_db_queries_requires_exact_confirm
    (exec : List (String × PyVal) → List (List (String × PyVal)))
    (xform : XFormM) (request_data : List (String × PyVal))
    (hq : dictGet (stripFalsy request_data) "query" = Option.none)
    (hs : dictGet (stripFalsy request_data) "submission_ids"
      = Option.none) :
    (dictGet (stripFalsy request_data) "confirm"
        ≠ some (PyVal.bool true) →
      build_db_queries exec xform request_data
        = (Except.error BuildError.noConfirmationProvided, [])) ∧
    (dictGet (stripFalsy request_data) "confirm"
        = some (PyVal.bool true) →
      build_db_queries exec xform request_data
        = (Except.ok
            ({ xform_id := xform.id, id__in := Option.none },
              get_base_query xform.username xform.id_string), [])) := by
  constructor
  · intro hne
    rcases hc : dictGet (stripFalsy request_data) "confirm" with _ | cv
    · simp [build_db_queries, hq, hs, hc]
    · rcases cv with _ | b | n | s | xs | d
      · simp [build_db_queries, hq, hs, hc]
      · rcases b with _ | _
        · simp [build_db_queries, hq, hs, hc]
        · exact absurd hc hne
      · simp [build_db_queries, hq, hs, hc]
      · simp [build_db_queries, hq, hs, hc]
      · simp [build_db_queries, hq, hs, hc]
      · simp [build_db_queries, hq, hs, hc]
  · intro hc
    simp [build_db_queries, hq, hs, hc]

/-- Witness for C4 at concrete inputs: with `submission_ids = []`
(stripped as falsy, hence absent), `confirm = "true"` and `confirm = 1`
both fail with the confirmation error, while `confirm = True` succeeds
with the whole-form filters. -/
theorem build_db_queries_requires_exact_confirm_witness :
    (build_db_queries (fun _ => []) ⟨3, "bob", "form_b"⟩
        [("submission_ids", PyVal.list []),
         ("confirm", PyVal.str "true")]
      = (Except.error BuildError.noConfirmationProvided, [])) ∧
    (build_db_queries (fun _ => []) ⟨3, "bob", "form_b"⟩
        [("submission_ids", PyVal.list []), ("confirm", PyVal.int 1)]
      = (Except.error BuildError.noConfirmationProvided, [])) ∧
    (build_db_queries (fun _ => []) ⟨3, "bob", "form_b"⟩
        [("submission_ids", PyVal.list []),
         ("confirm", PyVal.bool true)]
      = (Except.ok
          ({ xform_id := 3, id__in := Option.none },
            get_base_query "bob" "form_b"), [])) :=
  ⟨(build_db_queries_requires_exact_confirm (fun _ => []) ⟨3, "bob", "form_b"⟩
      [("submission_ids", PyVal.list []), ("confirm", PyVal.str "true")]
      rfl rfl).1
      (fun h => PyVal.noConfusion (Option.some.inj h)),
   (build_db_queries_requires_exact_confirm (fun _ => []) ⟨3, "bob", "form_b"⟩
      [("submission_ids", PyVal.list []), ("confirm", PyVal.int 1)]
      rfl rfl).1
      (fun h => PyVal.noConfusion (Option.some.inj h)),
   (build_db_queries_requires_exact_confirm (fun _ => []) ⟨3, "bob", "form_b"⟩
      [("submission_ids", PyVal.list []), ("confirm", PyVal.bool true)]
      rfl rfl).2 rfl⟩
